import Mathlib

/-!
# Metric events of the `metric` package (`metric/metrics.go`)

A shallow embedding of the event types of `metrics.go` and of
`collectSlowQueries`, followed by the properties proved about them. The
startup validation of the authentication flags and the volume bookkeeping of
the resource state tracker are not part of `metrics.go`; they are modelled
from the specification and marked as such.

Conventions of the embedding.

* `time.Duration` is an `int64` count of nanoseconds; it is embedded as `Int`.
  The code only compares durations with constants and converts them, so no
  arithmetic can overflow, and every statement proved for all of `Int` holds
  in particular for every `int64`.
* Go `int` is embedded as `Int`; the events pass it through unchanged.
* `float64` is embedded as `ℚ` (exact rationals): `ms` and `sec` are the exact
  quotients, not their IEEE roundings.
* `map[string]string` literals are embedded as association lists, keys in the
  order of the source literal.
* `Emit` hands `emit` a logger session and an `Event`; the embedding returns
  that pair (an `Emission`) instead of performing the call.
-/

namespace Metric

/-! ## Data model -/

/-- Nanosecond count of a `time.Duration`. -/
abbrev Duration := Int

/-- Value of `time.Millisecond`. -/
def Millisecond : Duration := 1000000

/-- Value of `time.Second`. -/
def Second : Duration := 1000000000

/-- Modelled from the spec: the severity type `EventState` and its constants
`EventStateOK`, `EventStateWarning`, `EventStateCritical` are declared outside
`metrics.go`; the spec gives the severity of a Metric Event as
`{OK, Warning, Critical}`. -/
inductive EventState where
  | EventStateOK
  | EventStateWarning
  | EventStateCritical
  deriving DecidableEq, Repr

export EventState (EventStateOK EventStateWarning EventStateCritical)

/-- Dynamic content of the `Value` field of an `Event` (an `interface{}` in
the code): `metrics.go` stores either a Go `int` or a `float64` there. -/
inductive Value where
  | int (n : Int)
  | float (q : ℚ)
  deriving DecidableEq, Repr

/-- Modelled from the spec: the record `Event` is declared outside
`metrics.go`; its fields are those of the struct literals in `metrics.go` and
of the spec's Metric Event (name, numeric value, severity, string
attributes). -/
structure Event where
  Name : String
  Value : Value
  State : EventState
  Attributes : List (String × String)
  deriving DecidableEq, Repr

/-- Arguments of one call `emit(logger.Session(session), event)`. -/
structure Emission where
  session : String
  event : Event
  deriving DecidableEq, Repr

/-- Embedding of `ms`: `float64(duration) / 1000000`. -/
def ms (duration : Duration) : ℚ := (duration : ℚ) / 1000000

/-- Embedding of `sec`: `float64(duration) / 1000000000`. -/
def sec (duration : Duration) : ℚ := (duration : ℚ) / 1000000000

/-- Embedding of `strconv.Itoa`: decimal text, with a leading minus sign for
negative numbers. -/
def Itoa : Int → String
  | Int.ofNat m => Nat.repr m
  | Int.negSucc m => "-" ++ Nat.repr (m + 1)

/-! ## Scheduling events -/

structure SchedulingFullDuration where
  PipelineName : String
  Duration : Duration
  deriving DecidableEq, Repr

/-- Embedding of `SchedulingFullDuration.Emit`. The two `if` statements run in
sequence, the second overwriting the state set by the first. -/
def SchedulingFullDuration.Emit (event : SchedulingFullDuration) : Emission :=
  let state := EventStateOK
  let state := if event.Duration > Second then EventStateWarning else state
  let state := if event.Duration > 5 * Second then EventStateCritical else state
  { session := "full-scheduling-duration"
    event :=
      { Name := "scheduling: full duration (ms)"
        Value := Value.float (ms event.Duration)
        State := state
        Attributes := [("pipeline", event.PipelineName)] } }

structure SchedulingLoadVersionsDuration where
  PipelineName : String
  Duration : Duration
  deriving DecidableEq, Repr

/-- Embedding of `SchedulingLoadVersionsDuration.Emit`. -/
def SchedulingLoadVersionsDuration.Emit (event : SchedulingLoadVersionsDuration) : Emission :=
  let state := EventStateOK
  let state := if event.Duration > Second then EventStateWarning else state
  let state := if event.Duration > 5 * Second then EventStateCritical else state
  { session := "loading-versions-duration"
    event :=
      { Name := "scheduling: loading versions duration (ms)"
        Value := Value.float (ms event.Duration)
        State := state
        Attributes := [("pipeline", event.PipelineName)] } }

structure SchedulingJobDuration where
  PipelineName : String
  JobName : String
  Duration : Duration
  deriving DecidableEq, Repr

/-- Embedding of `SchedulingJobDuration.Emit`. -/
def SchedulingJobDuration.Emit (event : SchedulingJobDuration) : Emission :=
  let state := EventStateOK
  let state := if event.Duration > Second then EventStateWarning else state
  let state := if event.Duration > 5 * Second then EventStateCritical else state
  { session := "job-scheduling-duration"
    event :=
      { Name := "scheduling: job duration (ms)"
        Value := Value.float (ms event.Duration)
        State := state
        Attributes := [("pipeline", event.PipelineName), ("job", event.JobName)] } }

/-! ## Worker gauges -/

structure WorkerContainers where
  WorkerName : String
  Containers : Int
  deriving DecidableEq, Repr

/-- Embedding of `WorkerContainers.Emit`. -/
def WorkerContainers.Emit (event : WorkerContainers) : Emission :=
  { session := "worker-containers"
    event :=
      { Name := "worker containers"
        Value := Value.int event.Containers
        State := EventStateOK
        Attributes := [("worker", event.WorkerName)] } }

structure WorkerVolumes where
  WorkerName : String
  Volumes : Int
  deriving DecidableEq, Repr

/-- Embedding of `WorkerVolumes.Emit`. -/
def WorkerVolumes.Emit (event : WorkerVolumes) : Emission :=
  { session := "worker-volumes"
    event :=
      { Name := "worker volumes"
        Value := Value.int event.Volumes
        State := EventStateOK
        Attributes := [("worker", event.WorkerName)] } }

/-! ## Garbage-collection backlog counts -/

structure CreatingContainersToBeGarbageCollected where
  Containers : Int
  deriving DecidableEq, Repr

/-- Embedding of `CreatingContainersToBeGarbageCollected.Emit`. -/
def CreatingContainersToBeGarbageCollected.Emit
    (event : CreatingContainersToBeGarbageCollected) : Emission :=
  { session := "gc-found-creating-containers-for-deletion"
    event :=
      { Name := "creating containers to be garbage collected"
        Value := Value.int event.Containers
        State := EventStateOK
        Attributes := [] } }

structure CreatedContainersToBeGarbageCollected where
  Containers : Int
  deriving DecidableEq, Repr

/-- Embedding of `CreatedContainersToBeGarbageCollected.Emit` (the session
name is spelled with a double `c` in the source). -/
def CreatedContainersToBeGarbageCollected.Emit
    (event : CreatedContainersToBeGarbageCollected) : Emission :=
  { session := "gc-found-created-ccontainers-for-deletion"
    event :=
      { Name := "created containers to be garbage collected"
        Value := Value.int event.Containers
        State := EventStateOK
        Attributes := [] } }

structure DestroyingContainersToBeGarbageCollected where
  Containers : Int
  deriving DecidableEq, Repr

/-- Embedding of `DestroyingContainersToBeGarbageCollected.Emit`. -/
def DestroyingContainersToBeGarbageCollected.Emit
    (event : DestroyingContainersToBeGarbageCollected) : Emission :=
  { session := "gc-found-destroying-containers-for-deletion"
    event :=
      { Name := "destroying containers to be garbage collected"
        Value := Value.int event.Containers
        State := EventStateOK
        Attributes := [] } }

structure FailedContainersToBeGarbageCollected where
  Containers : Int
  deriving DecidableEq, Repr

/-- Embedding of `FailedContainersToBeGarbageCollected.Emit`. -/
def FailedContainersToBeGarbageCollected.Emit
    (event : FailedContainersToBeGarbageCollected) : Emission :=
  { session := "gc-found-failed-containers-for-deletion"
    event :=
      { Name := "failed containers to be garbage collected"
        Value := Value.int event.Containers
        State := EventStateOK
        Attributes := [] } }

structure CreatedVolumesToBeGarbageCollected where
  Volumes : Int
  deriving DecidableEq, Repr

/-- Embedding of `CreatedVolumesToBeGarbageCollected.Emit`. -/
def CreatedVolumesToBeGarbageCollected.Emit
    (event : CreatedVolumesToBeGarbageCollected) : Emission :=
  { session := "gc-found-created-volumes-for-deletion"
    event :=
      { Name := "created volumes to be garbage collected"
        Value := Value.int event.Volumes
        State := EventStateOK
        Attributes := [] } }

structure DestroyingVolumesToBeGarbageCollected where
  Volumes : Int
  deriving DecidableEq, Repr

/-- Embedding of `DestroyingVolumesToBeGarbageCollected.Emit`. -/
def DestroyingVolumesToBeGarbageCollected.Emit
    (event : DestroyingVolumesToBeGarbageCollected) : Emission :=
  { session := "gc-found-destroying-volumes-for-deletion"
    event :=
      { Name := "destroying volumes to be garbage collected"
        Value := Value.int event.Volumes
        State := EventStateOK
        Attributes := [] } }

structure FailedVolumesToBeGarbageCollected where
  Volumes : Int
  deriving DecidableEq, Repr

/-- Embedding of `FailedVolumesToBeGarbageCollected.Emit`. -/
def FailedVolumesToBeGarbageCollected.Emit
    (event : FailedVolumesToBeGarbageCollected) : Emission :=
  { session := "gc-found-failed-volumes-for-deletion"
    event :=
      { Name := "failed volumes to be garbage collected"
        Value := Value.int event.Volumes
        State := EventStateOK
        Attributes := [] } }

/-- Name pattern of the backlog events as the spec words it: the category,
the resource kind, then `to be garbage collected`. -/
def backlogName (category kind : String) : String :=
  category ++ " " ++ kind ++ " to be garbage collected"

/-! ## Dropped collector jobs -/

structure GarbageCollectionContainerCollectorJobDropped where
  WorkerName : String
  deriving DecidableEq, Repr

/-- Embedding of `GarbageCollectionContainerCollectorJobDropped.Emit`. -/
def GarbageCollectionContainerCollectorJobDropped.Emit
    (event : GarbageCollectionContainerCollectorJobDropped) : Emission :=
  { session := "gc-container-collector-dropped"
    event :=
      { Name := "GC container collector job dropped"
        Value := Value.int 1
        State := EventStateOK
        Attributes := [("worker", event.WorkerName)] } }

structure GarbageCollectionVolumeCollectorJobDropped where
  WorkerName : String
  deriving DecidableEq, Repr

/-- Embedding of `GarbageCollectionVolumeCollectorJobDropped.Emit`. -/
def GarbageCollectionVolumeCollectorJobDropped.Emit
    (event : GarbageCollectionVolumeCollectorJobDropped) : Emission :=
  { session := "gc-volume-collector-dropped"
    event :=
      { Name := "GC volume collector job dropped"
        Value := Value.int 1
        State := EventStateOK
        Attributes := [("worker", event.WorkerName)] } }

/-! ## Build events -/

/-- The string type `db.BuildStatus`. -/
abbrev BuildStatus := String

structure BuildStarted where
  PipelineName : String
  JobName : String
  BuildName : String
  BuildID : Int
  TeamName : String
  deriving DecidableEq, Repr

/-- Embedding of `BuildStarted.Emit`. -/
def BuildStarted.Emit (event : BuildStarted) : Emission :=
  { session := "build-started"
    event :=
      { Name := "build started"
        Value := Value.int event.BuildID
        State := EventStateOK
        Attributes :=
          [ ("pipeline", event.PipelineName),
            ("job", event.JobName),
            ("build_name", event.BuildName),
            ("build_id", Itoa event.BuildID),
            ("team_name", event.TeamName) ] } }

structure BuildFinished where
  PipelineName : String
  JobName : String
  BuildName : String
  BuildID : Int
  BuildStatus : BuildStatus
  BuildDuration : Duration
  TeamName : String
  deriving DecidableEq, Repr

/-- Embedding of `BuildFinished.Emit`: the state is the constant
`EventStateOK`, whatever the build duration. -/
def BuildFinished.Emit (event : BuildFinished) : Emission :=
  { session := "build-finished"
    event :=
      { Name := "build finished"
        Value := Value.float (ms event.BuildDuration)
        State := EventStateOK
        Attributes :=
          [ ("pipeline", event.PipelineName),
            ("job", event.JobName),
            ("build_name", event.BuildName),
            ("build_id", Itoa event.BuildID),
            ("build_status", event.BuildStatus),
            ("team_name", event.TeamName) ] } }

/-! ## HTTP response time -/

structure HTTPResponseTime where
  Route : String
  Path : String
  Method : String
  Duration : Duration
  deriving DecidableEq, Repr

/-- Embedding of `HTTPResponseTime.Emit`. -/
def HTTPResponseTime.Emit (event : HTTPResponseTime) : Emission :=
  let state := EventStateOK
  let state := if event.Duration > 100 * Millisecond then EventStateWarning else state
  let state := if event.Duration > 1 * Second then EventStateCritical else state
  { session := "http-response-time"
    event :=
      { Name := "http response time"
        Value := Value.float (ms event.Duration)
        State := state
        Attributes :=
          [("route", event.Route), ("path", event.Path), ("method", event.Method)] } }

/-! ## Slow queries -/

/-- Go `error` value, identified by its message. -/
abbrev Error := String

/-- One call `logger.Error(action, err)`; `err` may be the nil error. -/
abbrev LogEntry := String × Option Error

/-- The record `SlowQuery`. The source carries both sides of an unresolved
merge for the type of `AvgTime` and `TotalTime` (`float64` on one side,
`time.Duration` on the other); `T` is that type. -/
structure SlowQuery (T : Type) where
  AvgTime : T
  Calls : Int
  TotalTime : T
  Rows : Int
  HitPercent : ℚ
  SqlStatement : String
  deriving DecidableEq, Repr

/-- Result set of a query, in the order the source yields the rows: for each
row, what `results.Scan` does with it, filling a `SlowQuery` or failing. -/
abbrev Rows (T : Type) := List (Except Error (SlowQuery T))

/-- Modelled from the spec: the interface `db.Conn` is declared outside
`metrics.go`; the spec only calls it a database of the process-wide list and a
SQL statement-statistics source. A connection is embedded as the statements
issued against it so far and its reply to a statement: a result set that may
be nil, and an error that may be nil. -/
structure Conn (T : Type) where
  issued : List String
  reply : String → Option (Rows T) × Option Error

/-- A call `dbConn.Query(statement)`: the statement is recorded as issued and
the connection replies. -/
def Conn.Query {T : Type} (dbConn : Conn T) (statement : String) :
    Conn T × Option (Rows T) × Option Error :=
  ({ dbConn with issued := dbConn.issued ++ [statement] }, dbConn.reply statement)

/-- The statement `collectSlowQueries` sends. -/
def slowQueryStatement : String :=
  "SELECT\n\t\ttotal_time / calls as avg_time,\n\t\tcalls,\n\t\ttotal_time,\n\t\trows,\n\t\t100.0 * shared_blks_hit / nullif(shared_blks_hit + shared_blks_read, 0) AS hit_percent,\n\t  regexp_replace(query, \x27[\\s\\t\\n]+\x27, \x27 \x27, \x27g\x27) as sanitized_sql\n\t\tFROM pg_stat_statements\n\t\tWHERE query NOT LIKE \x27%EXPLAIN%\x27\n\t\tAND query NOT LIKE \x27%INDEX%\x27\n\t\tAND query NOT LIKE \x27%pg_stat_statements%\x27\n\t\tAND calls > 1\n\t\tORDER BY avg_time DESC LIMIT 5\n\t"

/-- What a run of `collectSlowQueries` produces: the returned slice (`none` is
the nil slice) and error (`none` is the nil error), the `logger.Error` calls
it made, and the process-wide `Databases` list afterwards. -/
structure Collected (T : Type) where
  slowQueries : Option (List (SlowQuery T))
  err : Option Error
  logged : List LogEntry
  Databases : List (Conn T)

/-- The loop over `results.Next()` of `collectSlowQueries`: a row whose
scan fails is logged and skipped, a row that scans is appended. -/
def scanRows {T : Type} :
    Rows T → List (SlowQuery T) → List LogEntry → List (SlowQuery T) × List LogEntry
  | [], slowQueries, logged => (slowQueries, logged)
  | Except.error err :: results, slowQueries, logged =>
      scanRows results slowQueries (logged ++ [("slow-query-scanrow-failed", some err)])
  | Except.ok slowQuery :: results, slowQueries, logged =>
      scanRows results (slowQueries ++ [slowQuery]) logged

/-- Embedding of `collectSlowQueries`, with the process-wide `Databases` list
passed in and handed back. -/
def collectSlowQueries {T : Type} (Databases : List (Conn T)) : Collected T :=
  if h : Databases.length < 1 then
    let err : Error := "No database available"
    { slowQueries := none
      err := some err
      logged := [("slow-query-no-database-found", some err)]
      Databases := Databases }
  else
    let dbConn := Databases.get ⟨0, by omega⟩
    let slowQueries : List (SlowQuery T) := []
    match dbConn.Query slowQueryStatement with
    | (dbConn, results, err) =>
      match err, results with
      | none, some results =>
          let (slowQueries, logged) := scanRows results slowQueries []
          { slowQueries := some slowQueries
            err := none
            logged := logged
            Databases := Databases.set 0 dbConn }
      | err, _ =>
          { slowQueries := none
            err := err
            logged := [("slow-query-collection-failed", err)]
            Databases := Databases.set 0 dbConn }

/-- One row of the statistics source as `collectSlowQueries` meets it: the
values the source holds for the row, and the error `results.Scan` returns for
it, if any. -/
structure SourceRow (T : Type) where
  values : SlowQuery T
  scanError : Option Error

/-- What `results.Scan` does with a row of the source. -/
def SourceRow.scan {T : Type} (row : SourceRow T) : Except Error (SlowQuery T) :=
  match row.scanError with
  | none => Except.ok row.values
  | some err => Except.error err

/-- The rows of a result set that scan, in the order of the result set. -/
def scannedRows {T : Type} : Rows T → List (SlowQuery T)
  | [] => []
  | Except.ok slowQuery :: results => slowQuery :: scannedRows results
  | Except.error _ :: results => scannedRows results

/-- The list is ordered by `AvgTime`, descending. -/
def AvgTimeDescending {T : Type} [LE T] (slowQueries : List (SlowQuery T)) : Prop :=
  slowQueries.Pairwise (fun earlier later => later.AvgTime ≤ earlier.AvgTime)

/-- A statement record with the given average time, for worked examples. -/
def sampleQuery (avgTime : Duration) : SlowQuery Duration :=
  { AvgTime := avgTime, Calls := 2, TotalTime := 2 * avgTime, Rows := 1,
    HitPercent := 100, SqlStatement := "SELECT 1" }

/-- Three rows of a source for worked examples, the second of which does not
scan. -/
def sampleSource : List (SourceRow Duration) :=
  [ ⟨sampleQuery 9, none⟩, ⟨sampleQuery 7, some "converting NULL to float64"⟩,
    ⟨sampleQuery 3, none⟩ ]

/-- A connection that answers every statement with the rows of
`sampleSource`. -/
def sampleConn : Conn Duration :=
  { issued := [], reply := fun _ => (some (sampleSource.map SourceRow.scan), none) }

/-- A connection that answers every statement with a nil result set and a nil
error. -/
def silentConn : Conn Duration :=
  { issued := [], reply := fun _ => (none, none) }

/-- Position of a severity in the order OK, Warning, Critical. -/
def EventState.rank : EventState → Nat
  | EventStateOK => 0
  | EventStateWarning => 1
  | EventStateCritical => 2

/-- Embedding of `SlowQuery.Emit`. The source carries both sides of an
unresolved merge: one side renders `AvgTime` and `TotalTime` as they are
(`float64` fields), the other renders `ms(AvgTime)` and `sec(TotalTime)`
(`time.Duration` fields). `value` and `totalTimeSec` are those two renderings
and `FormatFloat` stands for `strconv.FormatFloat` with format `f`,
precision -1 and bit size 64. -/
def SlowQuery.Emit {T : Type} (value totalTimeSec : T → ℚ) (FormatFloat : ℚ → String)
    (event : SlowQuery T) : Emission :=
  { session := "slow-queries"
    event :=
      { Name := "slow queries"
        Value := Value.float (value event.AvgTime)
        State := EventStateOK
        Attributes :=
          [ ("calls", Itoa event.Calls),
            ("total_time_sec", FormatFloat (totalTimeSec event.TotalTime)),
            ("rows", Itoa event.Rows),
            ("hit_percent", FormatFloat event.HitPercent),
            ("sql_statement", event.SqlStatement) ] } }

/-- Reading a run of decimal digits, most significant first, onto the value
read so far; `none` when a character is not a digit. -/
def parseDigits : List Char → Nat → Option Nat
  | [], value => some value
  | c :: rest, value =>
      if c.isDigit then parseDigits rest (10 * value + (c.toNat - 48)) else none

/-- Parsing a decimal integer the way `strconv.Atoi` reads base 10: an optional
sign followed by one or more digits (without the range check of a 64-bit
`int`, since the embedding of `int` is unbounded). -/
def Atoi (s : String) : Option Int :=
  match s.data with
  | [] => none
  | c :: rest =>
      if c = '-' then
        if rest.isEmpty then none else (parseDigits rest 0).map (fun value => -(value : Int))
      else if c = '+' then
        if rest.isEmpty then none else (parseDigits rest 0).map (fun value => (value : Int))
      else (parseDigits (c :: rest) 0).map (fun value => (value : Int))

/-! ## Startup validation of the authentication flags -/

/-- Modelled from the spec: the startup validation of the command is outside
`src/`, where only the acceptance tests of `acceptance/auth_test.go` are. The
flags the validation reads: the two basic-auth credentials (empty when the
flag is not given), whether some OAuth provider is configured, the
diagnostics of the OAuth provider checks (missing client id or secret,
missing provider URLs), and development mode. -/
structure AuthFlags where
  BasicAuthUsername : String
  BasicAuthPassword : String
  OAuthConfigured : Bool
  OAuthDiagnostics : List String
  DevelopmentMode : Bool
  deriving DecidableEq, Repr

/-- Modelled from the spec: diagnostics of the startup validation, which is
outside `src/`. A partial set of basic credentials yields the message naming
the missing flag, no auth method configured at all yields the message to
configure basic auth, OAuth or development mode, and the provider checks add
their own; the texts are those the acceptance tests expect on standard
error. -/
def authDiagnostics (flags : AuthFlags) : List String :=
  (if flags.BasicAuthUsername = "" ∧ flags.BasicAuthPassword = ""
      ∧ flags.OAuthConfigured = false ∧ flags.DevelopmentMode = false
    then ["must configure basic auth, OAuth, or turn on development mode"] else [])
  ++ (if flags.BasicAuthUsername ≠ "" ∧ flags.BasicAuthPassword = ""
    then ["must specify --basic-auth-password to use basic auth"] else [])
  ++ (if flags.BasicAuthUsername = "" ∧ flags.BasicAuthPassword ≠ ""
    then ["must specify --basic-auth-username to use basic auth"] else [])
  ++ flags.OAuthDiagnostics

/-- Modelled from the spec: failure of process startup, which is outside
`src/`. A misconfiguration ends startup with exit status 1 and its
diagnostics on standard error; `none` when the validation has nothing to
report. -/
def startupFailure (flags : AuthFlags) : Option (Nat × List String) :=
  match authDiagnostics flags with
  | [] => none
  | diagnostics => some (1, diagnostics)

/-! ## Volume bookkeeping of the resource state tracker -/

/-- Modelled from the spec: the resource state tracker is outside `src/`. The
lifecycle states a bookkeeping row can be in; the terminal state `Destroyed`
has no row, the row being removed. -/
inductive LifecycleState where
  | Creating
  | Created
  | Destroying
  | Failed
  deriving DecidableEq, Repr

/-- Modelled from the spec: a volume row of the tracker, which is outside
`src/`: the volume, its lifecycle state, and the volume it derives from, if
any. -/
structure VolumeRow where
  id : Nat
  state : LifecycleState
  parent : Option Nat
  deriving DecidableEq, Repr

/-- Modelled from the spec: the reverse index of the tracker, which is outside
`src/`, from a parent to the children that still have a row, computed from
the store at query time. -/
def childrenIndex : List VolumeRow → Nat → List Nat
  | [], _ => []
  | row :: store, parent =>
      if row.parent = some parent then row.id :: childrenIndex store parent
      else childrenIndex store parent

/-- Modelled from the spec: `ListReapable` for volumes, of the tracker outside
`src/`: the volumes in the given state that the policy of the category finds
reapable and that have no child left in the store. -/
def ListReapable (policy : VolumeRow → Bool) (store : List VolumeRow)
    (state : LifecycleState) : List Nat :=
  (store.filter (fun row =>
    decide (row.state = state) && policy row && (childrenIndex store row.id).isEmpty)).map
    VolumeRow.id

/-- Modelled from the spec: `Remove` of the tracker outside `src/`, deleting the
bookkeeping of a volume. -/
def Remove (id : Nat) (store : List VolumeRow) : List VolumeRow :=
  store.filter (fun row => decide (row.id ≠ id))

/-- A store for worked examples: volume 1 with the two children 2 and 3, and
volume 4 without children. -/
def sampleStore : List VolumeRow :=
  [ ⟨1, LifecycleState.Created, none⟩, ⟨2, LifecycleState.Destroying, some 1⟩,
    ⟨3, LifecycleState.Created, some 1⟩, ⟨4, LifecycleState.Created, none⟩ ]

/-! ## Properties -/

/-- Two threshold tests run in sequence (the later one overwriting the earlier
one) amount to a three-way classification when the thresholds are ordered. -/
theorem sequential_thresholds (d lo hi : Int) (hle : lo ≤ hi) :
    (if d > hi then EventStateCritical
      else if d > lo then EventStateWarning else EventStateOK)
      = (if d ≤ lo then EventStateOK
         else if d ≤ hi then EventStateWarning else EventStateCritical) := by
  split_ifs <;> first | rfl | omega

/-- C1: for every duration (zero and negative included) and every pipeline and
job name, each of the three scheduling events renders State OK when the
duration is at most 1s, Warning when it is above 1s and at most 5s, and
Critical when it is above 5s. -/
theorem scheduling_state_classification (p j : String) (d : Duration) :
    (SchedulingFullDuration.Emit ⟨p, d⟩).event.State
        = (if d ≤ Second then EventStateOK
           else if d ≤ 5 * Second then EventStateWarning else EventStateCritical)
    ∧ (SchedulingLoadVersionsDuration.Emit ⟨p, d⟩).event.State
        = (if d ≤ Second then EventStateOK
           else if d ≤ 5 * Second then EventStateWarning else EventStateCritical)
    ∧ (SchedulingJobDuration.Emit ⟨p, j, d⟩).event.State
        = (if d ≤ Second then EventStateOK
           else if d ≤ 5 * Second then EventStateWarning else EventStateCritical) := by
  have h := sequential_thresholds d Second (5 * Second) (by decide)
  exact ⟨h, h, h⟩

/-- C2, as the spec words it, fails on the code: for the full-scheduling event
of pipeline `main`, a duration of exactly 1s does not render Warning and a
duration of exactly 5s does not render Critical. -/
theorem scheduling_boundary_counterexample :
    (SchedulingFullDuration.Emit ⟨"main", Second⟩).event.State ≠ EventStateWarning
    ∧ (SchedulingFullDuration.Emit ⟨"main", 5 * Second⟩).event.State ≠ EventStateCritical := by
  decide

/-- C2, amended: for each of the three scheduling events, a duration of exactly
1s renders State OK and a duration of exactly 5s renders State Warning; the
thresholds are strict, so Warning starts at 1s + 1ns and Critical at
5s + 1ns. -/
theorem scheduling_boundary_states (p j : String) :
    ((SchedulingFullDuration.Emit ⟨p, Second⟩).event.State = EventStateOK
      ∧ (SchedulingFullDuration.Emit ⟨p, 5 * Second⟩).event.State = EventStateWarning
      ∧ (SchedulingFullDuration.Emit ⟨p, Second + 1⟩).event.State = EventStateWarning
      ∧ (SchedulingFullDuration.Emit ⟨p, 5 * Second + 1⟩).event.State = EventStateCritical)
    ∧ ((SchedulingLoadVersionsDuration.Emit ⟨p, Second⟩).event.State = EventStateOK
      ∧ (SchedulingLoadVersionsDuration.Emit ⟨p, 5 * Second⟩).event.State = EventStateWarning
      ∧ (SchedulingLoadVersionsDuration.Emit ⟨p, Second + 1⟩).event.State = EventStateWarning
      ∧ (SchedulingLoadVersionsDuration.Emit ⟨p, 5 * Second + 1⟩).event.State
          = EventStateCritical)
    ∧ ((SchedulingJobDuration.Emit ⟨p, j, Second⟩).event.State = EventStateOK
      ∧ (SchedulingJobDuration.Emit ⟨p, j, 5 * Second⟩).event.State = EventStateWarning
      ∧ (SchedulingJobDuration.Emit ⟨p, j, Second + 1⟩).event.State = EventStateWarning
      ∧ (SchedulingJobDuration.Emit ⟨p, j, 5 * Second + 1⟩).event.State
          = EventStateCritical) := by
  refine ⟨⟨?_, ?_, ?_, ?_⟩, ⟨?_, ?_, ?_, ?_⟩, ⟨?_, ?_, ?_, ?_⟩⟩ <;> rfl

/-- C3: for every duration and every route, path and method, the HTTP
response-time event renders State OK when the duration is at most 100ms,
Warning when it is above 100ms and at most 1s, and Critical when it is above
1s. -/
theorem http_state_classification (route path method : String) (d : Duration) :
    (HTTPResponseTime.Emit ⟨route, path, method, d⟩).event.State
      = (if d ≤ 100 * Millisecond then EventStateOK
         else if d ≤ Second then EventStateWarning else EventStateCritical) := by
  have h := sequential_thresholds d (100 * Millisecond) (1 * Second) (by decide)
  simpa [HTTPResponseTime.Emit] using h

/-- C4, as the spec words it, fails on the code: for a `GET` of `/` on route
`index`, a duration of exactly 100ms does not render Warning and a duration
of exactly 1s does not render Critical. -/
theorem http_boundary_counterexample :
    (HTTPResponseTime.Emit ⟨"index", "/", "GET", 100 * Millisecond⟩).event.State
        ≠ EventStateWarning
    ∧ (HTTPResponseTime.Emit ⟨"index", "/", "GET", Second⟩).event.State
        ≠ EventStateCritical := by
  decide

/-- C4, amended: for the HTTP response-time event, a duration of exactly 100ms
renders State OK and a duration of exactly 1s renders State Warning; the
thresholds are strict, so Warning starts at 100ms + 1ns and Critical at
1s + 1ns. -/
theorem http_boundary_states (route path method : String) :
    (HTTPResponseTime.Emit ⟨route, path, method, 100 * Millisecond⟩).event.State
        = EventStateOK
    ∧ (HTTPResponseTime.Emit ⟨route, path, method, Second⟩).event.State
        = EventStateWarning
    ∧ (HTTPResponseTime.Emit ⟨route, path, method, 100 * Millisecond + 1⟩).event.State
        = EventStateWarning
    ∧ (HTTPResponseTime.Emit ⟨route, path, method, Second + 1⟩).event.State
        = EventStateCritical := by
  refine ⟨?_, ?_, ?_, ?_⟩ <;> rfl

/-- C5, as the spec words it, fails on the code: a build that took 2s is
rendered with State OK where the duration rule gives Warning, and a build
that took 6s is rendered with State OK where the rule gives Critical. -/
theorem build_finished_counterexample :
    (BuildFinished.Emit ⟨"main", "unit", "1", 42, "succeeded", 2 * Second, "team"⟩).event.State
        ≠ EventStateWarning
    ∧ (BuildFinished.Emit ⟨"main", "unit", "1", 42, "succeeded", 6 * Second, "team"⟩).event.State
        ≠ EventStateCritical := by
  decide

/-- C5, amended: the build-finished event is not severity-classified; for
every event, whatever its build duration, the rendered State is OK, so it
agrees with the duration rule exactly when the duration is at most 1s. -/
theorem build_finished_state_ok (event : BuildFinished) :
    (BuildFinished.Emit event).event.State = EventStateOK
    ∧ ((BuildFinished.Emit event).event.State
          = (if event.BuildDuration ≤ Second then EventStateOK
             else if event.BuildDuration ≤ 5 * Second then EventStateWarning
             else EventStateCritical)
        ↔ event.BuildDuration ≤ Second) := by
  refine ⟨rfl, ?_⟩
  simp only [BuildFinished.Emit]
  split_ifs <;> simp_all

/-- C6: over exact rationals, each of the five duration-carrying events renders
as Value the duration in nanoseconds divided by 1,000,000 (which is `ms`),
`sec` is the duration divided by 1,000,000,000, `ms` is 1000 times `sec`, and
a duration of 1s gives Value 1000. -/
theorem duration_value_in_ms (p j : String) (build : BuildFinished)
    (route path method : String) (d : Duration) :
    (SchedulingFullDuration.Emit ⟨p, d⟩).event.Value = Value.float ((d : ℚ) / 1000000)
    ∧ (SchedulingLoadVersionsDuration.Emit ⟨p, d⟩).event.Value
        = Value.float ((d : ℚ) / 1000000)
    ∧ (SchedulingJobDuration.Emit ⟨p, j, d⟩).event.Value = Value.float ((d : ℚ) / 1000000)
    ∧ (BuildFinished.Emit build).event.Value
        = Value.float ((build.BuildDuration : ℚ) / 1000000)
    ∧ (HTTPResponseTime.Emit ⟨route, path, method, d⟩).event.Value
        = Value.float ((d : ℚ) / 1000000)
    ∧ ms d = (d : ℚ) / 1000000
    ∧ sec d = (d : ℚ) / 1000000000
    ∧ ms d = 1000 * sec d
    ∧ (SchedulingFullDuration.Emit ⟨p, Second⟩).event.Value = Value.float 1000 := by
  refine ⟨rfl, rfl, rfl, rfl, rfl, rfl, rfl, ?_, ?_⟩
  · simp only [ms, sec]; ring
  · simp only [SchedulingFullDuration.Emit, ms, Second]; norm_num

/-- C7: for every count, each of the seven backlog events renders exactly the
event whose Name is its own lower-case category and resource kind followed by
`to be garbage collected`, whose Value is the count, whose State is OK and
whose attribute map is empty. -/
theorem backlog_events_render (n : Int) :
    (CreatingContainersToBeGarbageCollected.Emit ⟨n⟩).event
        = ⟨backlogName "creating" "containers", Value.int n, EventStateOK, []⟩
    ∧ (CreatedContainersToBeGarbageCollected.Emit ⟨n⟩).event
        = ⟨backlogName "created" "containers", Value.int n, EventStateOK, []⟩
    ∧ (DestroyingContainersToBeGarbageCollected.Emit ⟨n⟩).event
        = ⟨backlogName "destroying" "containers", Value.int n, EventStateOK, []⟩
    ∧ (FailedContainersToBeGarbageCollected.Emit ⟨n⟩).event
        = ⟨backlogName "failed" "containers", Value.int n, EventStateOK, []⟩
    ∧ (CreatedVolumesToBeGarbageCollected.Emit ⟨n⟩).event
        = ⟨backlogName "created" "volumes", Value.int n, EventStateOK, []⟩
    ∧ (DestroyingVolumesToBeGarbageCollected.Emit ⟨n⟩).event
        = ⟨backlogName "destroying" "volumes", Value.int n, EventStateOK, []⟩
    ∧ (FailedVolumesToBeGarbageCollected.Emit ⟨n⟩).event
        = ⟨backlogName "failed" "volumes", Value.int n, EventStateOK, []⟩ := by
  refine ⟨?_, ?_, ?_, ?_, ?_, ?_, ?_⟩ <;>
    simp [CreatingContainersToBeGarbageCollected.Emit,
      CreatedContainersToBeGarbageCollected.Emit,
      DestroyingContainersToBeGarbageCollected.Emit,
      FailedContainersToBeGarbageCollected.Emit,
      CreatedVolumesToBeGarbageCollected.Emit,
      DestroyingVolumesToBeGarbageCollected.Emit,
      FailedVolumesToBeGarbageCollected.Emit, backlogName]

/-- C8: for every worker identity, each of the two dropped-job events renders
Value 1, State OK, and an attribute map holding exactly `worker` mapped to
that identity. -/
theorem dropped_events_render (w : String) :
    ((GarbageCollectionContainerCollectorJobDropped.Emit ⟨w⟩).event.Value = Value.int 1
      ∧ (GarbageCollectionContainerCollectorJobDropped.Emit ⟨w⟩).event.State = EventStateOK
      ∧ (GarbageCollectionContainerCollectorJobDropped.Emit ⟨w⟩).event.Attributes
          = [("worker", w)])
    ∧ ((GarbageCollectionVolumeCollectorJobDropped.Emit ⟨w⟩).event.Value = Value.int 1
      ∧ (GarbageCollectionVolumeCollectorJobDropped.Emit ⟨w⟩).event.State = EventStateOK
      ∧ (GarbageCollectionVolumeCollectorJobDropped.Emit ⟨w⟩).event.Attributes
          = [("worker", w)]) :=
  ⟨⟨rfl, rfl, rfl⟩, ⟨rfl, rfl, rfl⟩⟩

/-- C9: for every worker name and count, the worker-containers event renders
exactly the event named `worker containers` and the worker-volumes event
exactly the event named `worker volumes`, each with the count as Value, State
OK, and an attribute map holding exactly `worker` mapped to the name. -/
theorem worker_gauges_render (w : String) (n : Int) :
    (WorkerContainers.Emit ⟨w, n⟩).event
        = ⟨"worker containers", Value.int n, EventStateOK, [("worker", w)]⟩
    ∧ (WorkerVolumes.Emit ⟨w, n⟩).event
        = ⟨"worker volumes", Value.int n, EventStateOK, [("worker", w)]⟩ :=
  ⟨rfl, rfl⟩

/-- C10: on an empty `Databases` list `collectSlowQueries` returns the nil slice
with the error `No database available` and leaves the list empty (no query
is issued); on a non-empty list it issues exactly one statement, against the
first connection, and leaves every other connection as it was. -/
theorem collectSlowQueries_database_choice (T : Type) (first : Conn T)
    (others : List (Conn T)) :
    ((collectSlowQueries ([] : List (Conn T))).slowQueries = none
      ∧ (collectSlowQueries ([] : List (Conn T))).err = some "No database available"
      ∧ (collectSlowQueries ([] : List (Conn T))).Databases = [])
    ∧ (collectSlowQueries (first :: others)).Databases
        = { first with issued := first.issued ++ [slowQueryStatement] } :: others := by
  refine ⟨⟨rfl, rfl, rfl⟩, ?_⟩
  simp only [collectSlowQueries, Conn.Query]
  split
  · rename_i h
    simp at h
  · split <;> rfl

/-- The scan loop appends to its accumulator the rows that scan, in order. -/
theorem scanRows_fst {T : Type} (results : Rows T) :
    ∀ (slowQueries : List (SlowQuery T)) (logged : List LogEntry),
      (scanRows results slowQueries logged).1 = slowQueries ++ scannedRows results := by
  induction results with
  | nil => intro slowQueries logged; simp [scanRows, scannedRows]
  | cons row results ih =>
    intro slowQueries logged
    cases row with
    | error err => simp [scanRows, scannedRows, ih]
    | ok slowQuery => simp [scanRows, scannedRows, ih]

/-- The rows of a source that scan are those without a scan error. -/
theorem scannedRows_source {T : Type} (source : List (SourceRow T)) :
    scannedRows (source.map SourceRow.scan)
      = (source.filter (fun row => row.scanError.isNone)).map SourceRow.values := by
  induction source with
  | nil => rfl
  | cons row source ih =>
    obtain ⟨values, scanError⟩ := row
    cases scanError <;> simp [SourceRow.scan, scannedRows, ih]

/-- When the first connection answers with a result set and no error,
`collectSlowQueries` returns the rows that scan and the nil error. -/
theorem collectSlowQueries_of_results {T : Type} (first : Conn T) (others : List (Conn T))
    (results : Rows T) (hquery : first.reply slowQueryStatement = (some results, none)) :
    (collectSlowQueries (first :: others)).slowQueries = some (scannedRows results)
    ∧ (collectSlowQueries (first :: others)).err = none := by
  have hfst := scanRows_fst results [] []
  simp only [collectSlowQueries, Conn.Query, List.length_cons, List.get_eq_getElem,
    List.getElem_cons_zero, hquery]
  split
  · rename_i h
    simp at h
  · simp at hfst
    simp [hfst]

/-- C11: when the query succeeds, `collectSlowQueries` returns the nil error and
exactly the rows of the source that scan, in the order of the source; so when
the source yields at most 5 rows the returned list has at most 5 entries, and
when the source is ordered by average time descending so is the returned
list. -/
theorem collectSlowQueries_returns_scanned_rows {T : Type} [LE T] (first : Conn T)
    (others : List (Conn T)) (source : List (SourceRow T))
    (hquery : first.reply slowQueryStatement = (some (source.map SourceRow.scan), none)) :
    ∃ returned : List (SlowQuery T),
      (collectSlowQueries (first :: others)).slowQueries = some returned
      ∧ (collectSlowQueries (first :: others)).err = none
      ∧ returned = (source.filter (fun row => row.scanError.isNone)).map SourceRow.values
      ∧ (source.length ≤ 5 → returned.length ≤ 5)
      ∧ (AvgTimeDescending (source.map SourceRow.values) → AvgTimeDescending returned) := by
  obtain ⟨hlist, herr⟩ := collectSlowQueries_of_results first others _ hquery
  rw [scannedRows_source] at hlist
  refine ⟨_, hlist, herr, rfl, ?_, ?_⟩
  · intro hlen
    rw [List.length_map]
    exact le_trans (List.length_filter_le _ _) hlen
  · intro hsorted
    exact List.Pairwise.sublist ((List.filter_sublist _).map _) hsorted

/-- C11 at a concrete input: a source of three rows ordered by average time, the
second of which does not scan. -/
theorem collectSlowQueries_returns_scanned_rows_witness :
    sampleConn.reply slowQueryStatement = (some (sampleSource.map SourceRow.scan), none)
    ∧ ∃ returned : List (SlowQuery Duration),
        (collectSlowQueries [sampleConn]).slowQueries = some returned
        ∧ (collectSlowQueries [sampleConn]).err = none
        ∧ returned
            = (sampleSource.filter (fun row => row.scanError.isNone)).map SourceRow.values
        ∧ (sampleSource.length ≤ 5 → returned.length ≤ 5)
        ∧ (AvgTimeDescending (sampleSource.map SourceRow.values)
            → AvgTimeDescending returned) :=
  ⟨rfl, collectSlowQueries_returns_scanned_rows sampleConn [] sampleSource rfl⟩

/-- Raising the duration never lowers the severity two sequential threshold
tests give. -/
theorem rank_thresholds_mono (lo hi d1 d2 : Int) (h : d1 ≤ d2) :
    (if d1 > hi then EventStateCritical
      else if d1 > lo then EventStateWarning else EventStateOK).rank
      ≤ (if d2 > hi then EventStateCritical
          else if d2 > lo then EventStateWarning else EventStateOK).rank := by
  split_ifs <;> simp only [EventState.rank] <;> omega

/-- Lowering both thresholds never lowers the severity. -/
theorem rank_thresholds_anti (lo hi lo2 hi2 d : Int) (hlo : lo2 ≤ lo) (hhi : hi2 ≤ hi) :
    (if d > hi then EventStateCritical
      else if d > lo then EventStateWarning else EventStateOK).rank
      ≤ (if d > hi2 then EventStateCritical
          else if d > lo2 then EventStateWarning else EventStateOK).rank := by
  split_ifs <;> simp only [EventState.rank] <;> omega

/-- C15: with OK below Warning below Critical, a longer duration never renders a
lower State, for each of the three scheduling events and for the HTTP
response-time event; and for every duration the HTTP response-time State is
at least as severe as the State of each scheduling event. -/
theorem severity_monotone (p j route path method : String) (d1 d2 : Duration)
    (h : d1 ≤ d2) :
    ((SchedulingFullDuration.Emit ⟨p, d1⟩).event.State.rank
        ≤ (SchedulingFullDuration.Emit ⟨p, d2⟩).event.State.rank
      ∧ (SchedulingLoadVersionsDuration.Emit ⟨p, d1⟩).event.State.rank
        ≤ (SchedulingLoadVersionsDuration.Emit ⟨p, d2⟩).event.State.rank
      ∧ (SchedulingJobDuration.Emit ⟨p, j, d1⟩).event.State.rank
        ≤ (SchedulingJobDuration.Emit ⟨p, j, d2⟩).event.State.rank
      ∧ (HTTPResponseTime.Emit ⟨route, path, method, d1⟩).event.State.rank
        ≤ (HTTPResponseTime.Emit ⟨route, path, method, d2⟩).event.State.rank)
    ∧ ((SchedulingFullDuration.Emit ⟨p, d1⟩).event.State.rank
        ≤ (HTTPResponseTime.Emit ⟨route, path, method, d1⟩).event.State.rank
      ∧ (SchedulingLoadVersionsDuration.Emit ⟨p, d1⟩).event.State.rank
        ≤ (HTTPResponseTime.Emit ⟨route, path, method, d1⟩).event.State.rank
      ∧ (SchedulingJobDuration.Emit ⟨p, j, d1⟩).event.State.rank
        ≤ (HTTPResponseTime.Emit ⟨route, path, method, d1⟩).event.State.rank)
    ∧ ((SchedulingFullDuration.Emit ⟨p, d2⟩).event.State.rank
        ≤ (HTTPResponseTime.Emit ⟨route, path, method, d2⟩).event.State.rank
      ∧ (SchedulingLoadVersionsDuration.Emit ⟨p, d2⟩).event.State.rank
        ≤ (HTTPResponseTime.Emit ⟨route, path, method, d2⟩).event.State.rank
      ∧ (SchedulingJobDuration.Emit ⟨p, j, d2⟩).event.State.rank
        ≤ (HTTPResponseTime.Emit ⟨route, path, method, d2⟩).event.State.rank) := by
  have hs := rank_thresholds_mono Second (5 * Second) d1 d2 h
  have hh := rank_thresholds_mono (100 * Millisecond) (1 * Second) d1 d2 h
  have h1 := rank_thresholds_anti Second (5 * Second) (100 * Millisecond) (1 * Second) d1
    (by decide) (by decide)
  have h2 := rank_thresholds_anti Second (5 * Second) (100 * Millisecond) (1 * Second) d2
    (by decide) (by decide)
  exact ⟨⟨hs, hs, hs, hh⟩, ⟨h1, h1, h1⟩, ⟨h2, h2, h2⟩⟩

/-- C15 at a concrete input: durations of 1s and 6s. -/
theorem severity_monotone_witness :
    (Second ≤ 6 * Second)
    ∧ (((SchedulingFullDuration.Emit ⟨"main", Second⟩).event.State.rank
        ≤ (SchedulingFullDuration.Emit ⟨"main", 6 * Second⟩).event.State.rank
      ∧ (SchedulingLoadVersionsDuration.Emit ⟨"main", Second⟩).event.State.rank
        ≤ (SchedulingLoadVersionsDuration.Emit ⟨"main", 6 * Second⟩).event.State.rank
      ∧ (SchedulingJobDuration.Emit ⟨"main", "unit", Second⟩).event.State.rank
        ≤ (SchedulingJobDuration.Emit ⟨"main", "unit", 6 * Second⟩).event.State.rank
      ∧ (HTTPResponseTime.Emit ⟨"index", "/", "GET", Second⟩).event.State.rank
        ≤ (HTTPResponseTime.Emit ⟨"index", "/", "GET", 6 * Second⟩).event.State.rank)
    ∧ ((SchedulingFullDuration.Emit ⟨"main", Second⟩).event.State.rank
        ≤ (HTTPResponseTime.Emit ⟨"index", "/", "GET", Second⟩).event.State.rank
      ∧ (SchedulingLoadVersionsDuration.Emit ⟨"main", Second⟩).event.State.rank
        ≤ (HTTPResponseTime.Emit ⟨"index", "/", "GET", Second⟩).event.State.rank
      ∧ (SchedulingJobDuration.Emit ⟨"main", "unit", Second⟩).event.State.rank
        ≤ (HTTPResponseTime.Emit ⟨"index", "/", "GET", Second⟩).event.State.rank)
    ∧ ((SchedulingFullDuration.Emit ⟨"main", 6 * Second⟩).event.State.rank
        ≤ (HTTPResponseTime.Emit ⟨"index", "/", "GET", 6 * Second⟩).event.State.rank
      ∧ (SchedulingLoadVersionsDuration.Emit ⟨"main", 6 * Second⟩).event.State.rank
        ≤ (HTTPResponseTime.Emit ⟨"index", "/", "GET", 6 * Second⟩).event.State.rank
      ∧ (SchedulingJobDuration.Emit ⟨"main", "unit", 6 * Second⟩).event.State.rank
        ≤ (HTTPResponseTime.Emit ⟨"index", "/", "GET", 6 * Second⟩).event.State.rank)) :=
  ⟨by decide,
    severity_monotone "main" "unit" "index" "/" "GET" Second (6 * Second) (by decide)⟩

/-- C16, as stated, fails on the code: when the first connection answers with a
nil result set and a nil error, the returned slice is nil and the returned
error is nil too. -/
theorem collectSlowQueries_nil_without_error :
    ¬ ((collectSlowQueries [silentConn]).slowQueries = none
        ↔ (collectSlowQueries [silentConn]).err ≠ none) := by
  have hlist : (collectSlowQueries [silentConn]).slowQueries = none := rfl
  have herr : (collectSlowQueries [silentConn]).err = none := rfl
  simp [hlist, herr]

/-- C16, amended: whenever `collectSlowQueries` returns a non-nil error the
returned slice is nil; and unless the first connection answers the statement
with a nil result set and a nil error, the returned slice is nil if and only
if the returned error is non-nil. -/
theorem collectSlowQueries_error_and_list {T : Type} (Databases : List (Conn T)) :
    ((collectSlowQueries Databases).err ≠ none
        → (collectSlowQueries Databases).slowQueries = none)
    ∧ ((∀ first others, Databases = first :: others
          → first.reply slowQueryStatement ≠ (none, none))
        → ((collectSlowQueries Databases).slowQueries = none
            ↔ (collectSlowQueries Databases).err ≠ none)) := by
  cases Databases with
  | nil => simp [collectSlowQueries]
  | cons first others =>
    simp only [collectSlowQueries, Conn.Query, List.length_cons, List.get_eq_getElem,
      List.getElem_cons_zero]
    split
    · rename_i h
      simp at h
    · rcases hreply : first.reply slowQueryStatement with ⟨results, err⟩
      cases err <;> cases results <;> simp [hreply]

/-- C16, amended, at a concrete input: a connection that answers with three
rows. -/
theorem collectSlowQueries_error_and_list_witness :
    (collectSlowQueries [sampleConn]).slowQueries = none
      ↔ (collectSlowQueries [sampleConn]).err ≠ none :=
  (collectSlowQueries_error_and_list [sampleConn]).2 (by
    intro first others h
    cases h
    simp [sampleConn])

/-- C17: whatever the field values of the events, the Names the eighteen event
types render are the eighteen fixed texts below, and these are pairwise
distinct. -/
theorem event_names_distinct {T : Type} (value totalTimeSec : T → ℚ)
    (FormatFloat : ℚ → String)
    (e1 : SchedulingFullDuration) (e2 : SchedulingLoadVersionsDuration)
    (e3 : SchedulingJobDuration) (e4 : WorkerContainers) (e5 : WorkerVolumes)
    (e6 : CreatingContainersToBeGarbageCollected)
    (e7 : CreatedContainersToBeGarbageCollected)
    (e8 : DestroyingContainersToBeGarbageCollected)
    (e9 : FailedContainersToBeGarbageCollected)
    (e10 : CreatedVolumesToBeGarbageCollected)
    (e11 : DestroyingVolumesToBeGarbageCollected)
    (e12 : FailedVolumesToBeGarbageCollected)
    (e13 : GarbageCollectionContainerCollectorJobDropped)
    (e14 : GarbageCollectionVolumeCollectorJobDropped)
    (e15 : BuildStarted) (e16 : BuildFinished) (e17 : SlowQuery T)
    (e18 : HTTPResponseTime) :
    [ e1.Emit.event.Name, e2.Emit.event.Name, e3.Emit.event.Name, e4.Emit.event.Name,
      e5.Emit.event.Name, e6.Emit.event.Name, e7.Emit.event.Name, e8.Emit.event.Name,
      e9.Emit.event.Name, e10.Emit.event.Name, e11.Emit.event.Name, e12.Emit.event.Name,
      e13.Emit.event.Name, e14.Emit.event.Name, e15.Emit.event.Name, e16.Emit.event.Name,
      (SlowQuery.Emit value totalTimeSec FormatFloat e17).event.Name, e18.Emit.event.Name ]
      = [ "scheduling: full duration (ms)", "scheduling: loading versions duration (ms)",
          "scheduling: job duration (ms)", "worker containers", "worker volumes",
          "creating containers to be garbage collected",
          "created containers to be garbage collected",
          "destroying containers to be garbage collected",
          "failed containers to be garbage collected",
          "created volumes to be garbage collected",
          "destroying volumes to be garbage collected",
          "failed volumes to be garbage collected",
          "GC container collector job dropped", "GC volume collector job dropped",
          "build started", "build finished", "slow queries", "http response time" ]
    ∧ [ e1.Emit.event.Name, e2.Emit.event.Name, e3.Emit.event.Name, e4.Emit.event.Name,
        e5.Emit.event.Name, e6.Emit.event.Name, e7.Emit.event.Name, e8.Emit.event.Name,
        e9.Emit.event.Name, e10.Emit.event.Name, e11.Emit.event.Name, e12.Emit.event.Name,
        e13.Emit.event.Name, e14.Emit.event.Name, e15.Emit.event.Name, e16.Emit.event.Name,
        (SlowQuery.Emit value totalTimeSec FormatFloat e17).event.Name,
        e18.Emit.event.Name ].Nodup := by
  refine ⟨rfl, ?_⟩
  show List.Nodup
    [ "scheduling: full duration (ms)", "scheduling: loading versions duration (ms)",
      "scheduling: job duration (ms)", "worker containers", "worker volumes",
      "creating containers to be garbage collected",
      "created containers to be garbage collected",
      "destroying containers to be garbage collected",
      "failed containers to be garbage collected",
      "created volumes to be garbage collected",
      "destroying volumes to be garbage collected",
      "failed volumes to be garbage collected",
      "GC container collector job dropped", "GC volume collector job dropped",
      "build started", "build finished", "slow queries", "http response time" ]
  decide

/-- Every decimal digit character is a digit whose value is the digit. -/
theorem digitChar_value :
    ∀ k, k < 10 → (Nat.digitChar k).isDigit = true ∧ (Nat.digitChar k).toNat - 48 = k := by
  decide

/-- Reading the digits `Nat.toDigitsCore` puts in front of `ds` amounts to
starting the reading of `ds` from the number converted. -/
theorem parseDigits_toDigitsCore :
    ∀ (fuel n : Nat) (ds : List Char), n < fuel →
      parseDigits (Nat.toDigitsCore 10 fuel n ds) 0 = parseDigits ds n := by
  intro fuel
  induction fuel with
  | zero => intro n ds h; omega
  | succ fuel ih =>
    intro n ds h
    obtain ⟨hdigit, hvalue⟩ := digitChar_value (n % 10) (Nat.mod_lt _ (by decide))
    have hstep : parseDigits (Nat.digitChar (n % 10) :: ds) (n / 10) = parseDigits ds n := by
      simp only [parseDigits, hdigit, hvalue, if_true]
      congr 1
      omega
    simp only [Nat.toDigitsCore]
    split
    · rename_i hzero
      rw [← hstep, hzero]
    · rename_i hpos
      rw [ih (n / 10) _ (by omega), hstep]

/-- The text `Nat.toDigitsCore` produces starts with a digit. -/
theorem toDigitsCore_head :
    ∀ (fuel n : Nat) (ds : List Char), n < fuel →
      ∃ c rest, Nat.toDigitsCore 10 fuel n ds = c :: rest ∧ c.isDigit = true := by
  intro fuel
  induction fuel with
  | zero => intro n ds h; omega
  | succ fuel ih =>
    intro n ds h
    simp only [Nat.toDigitsCore]
    split
    · exact ⟨_, _, rfl, (digitChar_value (n % 10) (Nat.mod_lt _ (by decide))).1⟩
    · exact ih (n / 10) _ (by omega)

/-- Parsing the decimal text of an integer gives the integer back. -/
theorem Atoi_Itoa (n : Int) : Atoi (Itoa n) = some n := by
  cases n with
  | ofNat m =>
    obtain ⟨c, rest, hdigits, hdigit⟩ := toDigitsCore_head (m + 1) m [] (by omega)
    have hparse := parseDigits_toDigitsCore (m + 1) m [] (by omega)
    have hminus : c ≠ '-' := by
      intro hc; rw [hc] at hdigit; exact absurd hdigit (by decide)
    have hplus : c ≠ '+' := by
      intro hc; rw [hc] at hdigit; exact absurd hdigit (by decide)
    simp only [Atoi, Itoa, Nat.repr, Nat.toDigits, List.asString, hdigits, hminus, hplus,
      if_false]
    rw [← hdigits, hparse]
    simp [parseDigits]
  | negSucc m =>
    obtain ⟨c, rest, hdigits, _⟩ := toDigitsCore_head (m + 1 + 1) (m + 1) [] (by omega)
    have hparse := parseDigits_toDigitsCore (m + 1 + 1) (m + 1) [] (by omega)
    have hdata : ("-" ++ Nat.repr (m + 1)).data = '-' :: Nat.toDigitsCore 10 (m + 1 + 1) (m + 1) [] := by
      simp [Nat.repr, Nat.toDigits, List.asString]
    simp only [Atoi, Itoa, hdata, if_true]
    rw [hparse, hdigits]
    simp [parseDigits, Int.negSucc_eq]

/-- C18: for every build id (zero and negative included), the build-started
event renders the id as Value, the decimal text of the id as its `build_id`
attribute, and State OK; parsing that attribute as a decimal integer gives
the id back; and the build-finished event renders the same `build_id` text
for the same id. -/
theorem build_id_attribute (pipeline job build team : String) (n : Int)
    (pipeline2 job2 build2 team2 : String) (status : BuildStatus) (d : Duration) :
    (BuildStarted.Emit ⟨pipeline, job, build, n, team⟩).event.Value = Value.int n
    ∧ (BuildStarted.Emit ⟨pipeline, job, build, n, team⟩).event.Attributes.lookup "build_id"
        = some (Itoa n)
    ∧ ((BuildStarted.Emit ⟨pipeline, job, build, n, team⟩).event.Attributes.lookup
          "build_id").bind Atoi = some n
    ∧ (BuildFinished.Emit ⟨pipeline2, job2, build2, n, status, d, team2⟩).event.Attributes.lookup
          "build_id"
        = (BuildStarted.Emit ⟨pipeline, job, build, n, team⟩).event.Attributes.lookup
            "build_id"
    ∧ (BuildStarted.Emit ⟨pipeline, job, build, n, team⟩).event.State = EventStateOK := by
  have hstarted :
      (BuildStarted.Emit ⟨pipeline, job, build, n, team⟩).event.Attributes.lookup "build_id"
        = some (Itoa n) := by
    simp [BuildStarted.Emit, List.lookup]
  have hfinished :
      (BuildFinished.Emit ⟨pipeline2, job2, build2, n, status, d, team2⟩).event.Attributes.lookup
          "build_id" = some (Itoa n) := by
    simp [BuildFinished.Emit, List.lookup]
  refine ⟨rfl, hstarted, ?_, ?_, rfl⟩
  · rw [hstarted]
    exact Atoi_Itoa n
  · rw [hstarted, hfinished]

/-- C12: for every configuration with exactly one of the basic-auth username and
password set, startup fails with exit status 1 and the message naming the
missing flag on standard error; and for every configuration with no auth
method set, startup fails with exit status 1 and the message to configure
basic auth, OAuth or development mode. -/
theorem startup_auth_validation (flags : AuthFlags) :
    (flags.BasicAuthUsername ≠ "" → flags.BasicAuthPassword = "" →
      ∃ stderr, startupFailure flags = some (1, stderr)
        ∧ "must specify --basic-auth-password to use basic auth" ∈ stderr)
    ∧ (flags.BasicAuthUsername = "" → flags.BasicAuthPassword ≠ "" →
      ∃ stderr, startupFailure flags = some (1, stderr)
        ∧ "must specify --basic-auth-username to use basic auth" ∈ stderr)
    ∧ (flags.BasicAuthUsername = "" → flags.BasicAuthPassword = "" →
      flags.OAuthConfigured = false → flags.DevelopmentMode = false →
      ∃ stderr, startupFailure flags = some (1, stderr)
        ∧ "must configure basic auth, OAuth, or turn on development mode" ∈ stderr) := by
  have hfail : ∀ message, message ∈ authDiagnostics flags →
      ∃ stderr, startupFailure flags = some (1, stderr) ∧ message ∈ stderr := by
    intro message hmem
    unfold startupFailure
    split
    · rename_i hnil
      rw [hnil] at hmem
      exact absurd hmem (List.not_mem_nil _)
    · exact ⟨_, rfl, hmem⟩
  refine ⟨?_, ?_, ?_⟩
  · intro hu hp
    exact hfail _ (by simp [authDiagnostics, hu, hp])
  · intro hu hp
    exact hfail _ (by simp [authDiagnostics, hu, hp])
  · intro hu hp ho hd
    exact hfail _ (by simp [authDiagnostics, hu, hp, ho, hd])

/-- C12 at concrete inputs: only the username given, only the password given,
and nothing given. -/
theorem startup_auth_validation_witness :
    (∃ stderr, startupFailure ⟨"admin", "", false, [], false⟩ = some (1, stderr)
        ∧ "must specify --basic-auth-password to use basic auth" ∈ stderr)
    ∧ (∃ stderr, startupFailure ⟨"", "password", false, [], false⟩ = some (1, stderr)
        ∧ "must specify --basic-auth-username to use basic auth" ∈ stderr)
    ∧ (∃ stderr, startupFailure ⟨"", "", false, [], false⟩ = some (1, stderr)
        ∧ "must configure basic auth, OAuth, or turn on development mode" ∈ stderr) :=
  ⟨(startup_auth_validation ⟨"admin", "", false, [], false⟩).1 (by decide) rfl,
    (startup_auth_validation ⟨"", "password", false, [], false⟩).2.1 rfl (by decide),
    (startup_auth_validation ⟨"", "", false, [], false⟩).2.2 rfl rfl rfl rfl⟩

/-- The reverse index lists the rows of the store that name the parent. -/
theorem childrenIndex_eq (store : List VolumeRow) (parent : Nat) :
    childrenIndex store parent
      = (store.filter (fun row => decide (row.parent = some parent))).map VolumeRow.id := by
  induction store with
  | nil => rfl
  | cons row store ih =>
    by_cases h : row.parent = some parent <;> simp [childrenIndex, h, ih]

/-- The reverse index of a parent is empty exactly when no row of the store
names it. -/
theorem childrenIndex_isEmpty (store : List VolumeRow) (parent : Nat) :
    (childrenIndex store parent).isEmpty = true
      ↔ ∀ child ∈ store, child.parent ≠ some parent := by
  rw [childrenIndex_eq]
  simp [List.isEmpty_iff, List.filter_eq_nil_iff]

/-- Removing the bookkeeping of a list of volumes keeps the rows of the other
volumes. -/
theorem foldr_Remove (ids : List Nat) (store : List VolumeRow) :
    ids.foldr Remove store = store.filter (fun row => decide (row.id ∉ ids)) := by
  induction ids with
  | nil => simp
  | cons id ids ih =>
    simp only [List.foldr_cons, ih, Remove, List.filter_filter]
    congr 1
    funext row
    simp [and_comm]

/-- C13: whatever the store and the policy, a volume that `ListReapable` lists
has no child left in the store; a volume in the requested state that the
policy finds reapable is listed as soon as no row of the store names it as
parent; and it is listed once the bookkeeping of all its children has been
removed, provided it is not its own child. -/
theorem ListReapable_excludes_parents (policy : VolumeRow → Bool) (store : List VolumeRow)
    (state : LifecycleState) :
    (∀ id, id ∈ ListReapable policy store state →
      ∀ child ∈ store, child.parent ≠ some id)
    ∧ (∀ row ∈ store, row.state = state → policy row = true →
      (∀ child ∈ store, child.parent ≠ some row.id) →
      row.id ∈ ListReapable policy store state)
    ∧ (∀ row ∈ store, row.state = state → policy row = true →
      (∀ other ∈ store, other.id = row.id → other.parent ≠ some row.id) →
      row.id ∈ ListReapable policy ((childrenIndex store row.id).foldr Remove store) state) := by
  have hlisted : ∀ (rows : List VolumeRow), ∀ row ∈ rows, row.state = state →
      policy row = true → (∀ child ∈ rows, child.parent ≠ some row.id) →
      row.id ∈ ListReapable policy rows state := by
    intro rows row hrow hstate hpolicy hchildren
    simp only [ListReapable, List.mem_map, List.mem_filter, Bool.and_eq_true,
      decide_eq_true_eq]
    exact ⟨row, ⟨hrow, ⟨hstate, hpolicy⟩, (childrenIndex_isEmpty rows row.id).2 hchildren⟩,
      rfl⟩
  refine ⟨?_, hlisted store, ?_⟩
  · intro id hid
    simp only [ListReapable, List.mem_map, List.mem_filter, Bool.and_eq_true,
      decide_eq_true_eq] at hid
    obtain ⟨row, ⟨_, _, hempty⟩, rfl⟩ := hid
    exact (childrenIndex_isEmpty store row.id).1 hempty
  · intro row hrow hstate hpolicy hself
    have hmem : ∀ other : VolumeRow, other ∈ store → other.parent = some row.id →
        other.id ∈ childrenIndex store row.id := by
      intro other hother hparent
      rw [childrenIndex_eq]
      exact List.mem_map.2 ⟨other, List.mem_filter.2 ⟨hother, by simpa using hparent⟩, rfl⟩
    have hnot : row.id ∉ childrenIndex store row.id := by
      rw [childrenIndex_eq]
      intro hin
      obtain ⟨other, hother, hid⟩ := List.mem_map.1 hin
      obtain ⟨hother, hparent⟩ := List.mem_filter.1 hother
      exact hself other hother hid (by simpa using hparent)
    rw [foldr_Remove]
    apply hlisted _ row (List.mem_filter.2 ⟨hrow, by simpa using hnot⟩) hstate hpolicy
    intro child hchild hparent
    obtain ⟨hchild, hkept⟩ := List.mem_filter.1 hchild
    exact (by simpa using hkept : child.id ∉ childrenIndex store row.id)
      (hmem child hchild hparent)

/-- C13 at a concrete store: volume 1 has the children 2 and 3 and is not
listed, volume 4 has none and is listed, and volume 1 is listed once the
bookkeeping of its children is removed. -/
theorem ListReapable_excludes_parents_witness :
    (1 ∉ ListReapable (fun _ => true) sampleStore LifecycleState.Created
      ∧ 4 ∈ ListReapable (fun _ => true) sampleStore LifecycleState.Created)
    ∧ 1 ∈ ListReapable (fun _ => true)
        ((childrenIndex sampleStore 1).foldr Remove sampleStore) LifecycleState.Created :=
  ⟨⟨by decide, by decide⟩,
    (ListReapable_excludes_parents (fun _ => true) sampleStore LifecycleState.Created).2.2
      ⟨1, LifecycleState.Created, none⟩ (by decide) rfl rfl (by decide)⟩

end Metric
